import Mathlib

/-!
Shallow embedding of the turn-guidance toolkit
(`include/extractor/guidance/toolkit.hpp`) of an OSRM-style road-network
extraction pipeline, together with theorems checking the module
specification against the code.

Angles and coordinates are modelled over `ℚ` (the source uses `double`,
but every operation appearing here — subtraction, absolute value, `min`,
`max`, division, comparison — is exact on the rationals, so `ℚ` is a
faithful carrier for the arithmetic).  Machine enumerations are modelled
as Lean inductives with an explicit index (`val`) mirroring the C++
underlying integer value.
-/

namespace Osrm

/-- Modelled from the spec: the 8-way direction-modifier enumeration of
`turn_instruction.hpp` (that header is not among the provided sources).
The order is fixed by the spec's data model (§3) and is consistent with
every index-based table in `toolkit.hpp`:
UTurn(0), SharpRight(1), Right(2), SlightRight(3), Straight(4),
SlightLeft(5), Left(6), SharpLeft(7). -/
inductive DirectionModifier
  | UTurn
  | SharpRight
  | Right
  | SlightRight
  | Straight
  | SlightLeft
  | Left
  | SharpLeft
  deriving DecidableEq, Fintype

/-- Underlying integer value of the C++ enum constant. -/
def DirectionModifier.val : DirectionModifier → Nat
  | .UTurn => 0
  | .SharpRight => 1
  | .Right => 2
  | .SlightRight => 3
  | .Straight => 4
  | .SlightLeft => 5
  | .Left => 6
  | .SharpLeft => 7

/-- Interpretation of `static_cast<DirectionModifier>` on an integer that
the source always produces reduced modulo 8. -/
def DirectionModifier.ofIndex (n : Nat) : DirectionModifier :=
  match n % 8 with
  | 0 => .UTurn
  | 1 => .SharpRight
  | 2 => .Right
  | 3 => .SlightRight
  | 4 => .Straight
  | 5 => .SlightLeft
  | 6 => .Left
  | _ => .SharpLeft

/-- `detail::num_direction_modifiers`. -/
def num_direction_modifiers : Nat := 8

/-- `detail::shiftable_ccw = {false, true, true, false, false, true, true, false}`,
indexed by the modifier's value. -/
def shiftable_ccw : DirectionModifier → Bool
  | .UTurn => false
  | .SharpRight => true
  | .Right => true
  | .SlightRight => false
  | .Straight => false
  | .SlightLeft => true
  | .Left => true
  | .SharpLeft => false

/-- `detail::shiftable_cw = {false, false, true, true, false, false, true, true}`,
indexed by the modifier's value. -/
def shiftable_cw : DirectionModifier → Bool
  | .UTurn => false
  | .SharpRight => false
  | .Right => true
  | .SlightRight => true
  | .Straight => false
  | .SlightLeft => false
  | .Left => true
  | .SharpLeft => true

/-- `forcedShiftCCW`: `(modifier + 1) % num_direction_modifiers`. -/
def forcedShiftCCW (modifier : DirectionModifier) : DirectionModifier :=
  DirectionModifier.ofIndex ((modifier.val + 1) % num_direction_modifiers)

/-- `shiftCCW`: forced CCW shift when the modifier is CCW-shiftable, identity otherwise. -/
def shiftCCW (modifier : DirectionModifier) : DirectionModifier :=
  if shiftable_ccw modifier then forcedShiftCCW modifier else modifier

/-- `forcedShiftCW`: `(modifier + num_direction_modifiers - 1) % num_direction_modifiers`. -/
def forcedShiftCW (modifier : DirectionModifier) : DirectionModifier :=
  DirectionModifier.ofIndex
    ((modifier.val + num_direction_modifiers - 1) % num_direction_modifiers)

/-- `shiftCW`: forced CW shift when the modifier is CW-shiftable, identity otherwise. -/
def shiftCW (modifier : DirectionModifier) : DirectionModifier :=
  if shiftable_cw modifier then forcedShiftCW modifier else modifier

/-- Modelled from the spec: the turn-type enumeration of
`turn_instruction.hpp` (not among the provided sources).  The spec's data
model (§3) names an ordinary turn, end-of-road and no-turn category plus
non-basic categories such as roundabout entry; `Roundabout` stands for
the latter. -/
inductive TurnType
  | NoTurn
  | Turn
  | EndOfRoad
  | Roundabout
  deriving DecidableEq, Fintype

/-- `TurnInstruction`: a (turn type, direction modifier) pair. -/
structure TurnInstruction where
  type : TurnType
  direction_modifier : DirectionModifier
  deriving DecidableEq, Fintype

/-- `isBasic`: `type == TurnType::Turn || type == TurnType::EndOfRoad`. -/
def isBasic (type : TurnType) : Bool :=
  type == TurnType.Turn || type == TurnType.EndOfRoad

/-- `resolve`, with the C++ in-place mutation rendered as a
(success flag, resulting instruction) pair: shift the candidate's
modifier one step in the requested rotation; fail (leaving the candidate
unchanged) when the shifted value collides with the neighbor or the shift
was a no-op. -/
def resolve (to_resolve : TurnInstruction) (neighbor : TurnInstruction)
    (resolve_cw : Bool) : Bool × TurnInstruction :=
  let shifted_turn :=
    if resolve_cw then shiftCW to_resolve.direction_modifier
    else shiftCCW to_resolve.direction_modifier
  if shifted_turn = neighbor.direction_modifier ∨
      shifted_turn = to_resolve.direction_modifier then
    (false, to_resolve)
  else
    (true, { to_resolve with direction_modifier := shifted_turn })

/-- `resolveTransitive`, with mutation rendered as a
(success flag, resulting first, resulting second) triple: resolve
`second` against `third`; on success additionally shift `first` with the
(conditional) `shiftCW`/`shiftCCW`. -/
def resolveTransitive (first second : TurnInstruction)
    (third : TurnInstruction) (resolve_cw : Bool) :
    Bool × TurnInstruction × TurnInstruction :=
  match resolve second third resolve_cw with
  | (true, second') =>
      (true,
        { first with direction_modifier :=
            if resolve_cw then shiftCW first.direction_modifier
            else shiftCCW first.direction_modifier },
        second')
  | (false, second') => (false, first, second')

/-- `isDistinct`: adjacent modifiers (one position apart on the 8-way
circle, in either rotation) are not distinct. -/
def isDistinct (first second : DirectionModifier) : Bool :=
  if (first.val + 1) % num_direction_modifiers == second.val then
    false
  else if (second.val + 1) % num_direction_modifiers == first.val then
    false
  else
    true

/-- `angularDeviation(angle, from) = min(360 - |angle - from|, |angle - from|)`. -/
def angularDeviation (angle base : ℚ) : ℚ :=
  let deviation := |angle - base|
  min (360 - deviation) deviation

/-- The local `center` array of `getAngularPenalty`:
`{0, 45, 90, 135, 180, 225, 270, 315}`, indexed by the modifier's value. -/
def center : DirectionModifier → ℚ
  | .UTurn => 0
  | .SharpRight => 45
  | .Right => 90
  | .SlightRight => 135
  | .Straight => 180
  | .SlightLeft => 225
  | .Left => 270
  | .SharpLeft => 315

/-- `getAngularPenalty`: deviation of the angle from the modifier's ideal center. -/
def getAngularPenalty (angle : ℚ) (modifier : DirectionModifier) : ℚ :=
  angularDeviation (center modifier) angle

/-- The local `deviations` array of `getTurnConfidence`:
`{0, 45, 50, 30, 20, 30, 50, 45}`, indexed by the modifier's value. -/
def deviations : DirectionModifier → ℚ
  | .UTurn => 0
  | .SharpRight => 45
  | .Right => 50
  | .SlightRight => 30
  | .Straight => 20
  | .SlightLeft => 30
  | .Left => 50
  | .SharpLeft => 45

/-- `getTurnConfidence`: 1.0 for non-basic types and U-turns, otherwise a
quadratic penalty against the per-modifier tolerance. -/
def getTurnConfidence (angle : ℚ) (instruction : TurnInstruction) : ℚ :=
  if !isBasic instruction.type ||
      instruction.direction_modifier == DirectionModifier.UTurn then
    1
  else
    let difference := getAngularPenalty angle instruction.direction_modifier
    let max_deviation := deviations instruction.direction_modifier
    1 - (difference / max_deviation) * (difference / max_deviation)

/-- `getTurnDirection`: band classification of a turn angle, bands tested
in source order (first match wins). -/
def getTurnDirection (angle : ℚ) : DirectionModifier :=
  if angle > 0 ∧ angle < 60 then DirectionModifier.SharpRight
  else if angle ≥ 60 ∧ angle < 140 then DirectionModifier.Right
  else if angle ≥ 140 ∧ angle < 170 then DirectionModifier.SlightRight
  else if angle ≥ 165 ∧ angle ≤ 195 then DirectionModifier.Straight
  else if angle > 190 ∧ angle ≤ 220 then DirectionModifier.SlightLeft
  else if angle > 220 ∧ angle ≤ 300 then DirectionModifier.Left
  else if angle > 300 ∧ angle < 360 then DirectionModifier.SharpLeft
  else DirectionModifier.UTurn

/-- `util::Coordinate`, as an exact (lon, lat) pair. -/
structure Coordinate where
  lon : ℚ
  lat : ℚ
  deriving DecidableEq

/-- `extractor::QueryNode`, restricted to the fields this module reads. -/
structure QueryNode where
  lon : ℚ
  lat : ℚ
  deriving DecidableEq

/-- The `extractCoordinateFromNode` lambda: `{node.lon, node.lat}`. -/
def extractCoordinateFromNode (node : QueryNode) : Coordinate :=
  ⟨node.lon, node.lat⟩

/-- `detail::DESIRED_SEGMENT_LENGTH = 10.0`. -/
def DESIRED_SEGMENT_LENGTH : ℚ := 10

/-- The `getFactor` lambda of `detail::getCoordinateFromCompressedRange`:
fraction of the last segment needed to reach `DESIRED_SEGMENT_LENGTH`,
clamped into `[0, 1]`. -/
def getFactor (first_distance second_distance : ℚ) : ℚ :=
  max 0 (min ((DESIRED_SEGMENT_LENGTH - first_distance) /
              (second_distance - first_distance)) 1)

/-- `detail::getCoordinateFromCompressedRange`, with the external distance
and interpolation primitives (spec §6) passed as parameters and the loop
rendered as structural recursion over the compressed node-id sequence,
carrying the current coordinate and the accumulated distance. -/
def getCoordinateFromCompressedRange
    (haversineDistance : Coordinate → Coordinate → ℚ)
    (interpolateLinear : ℚ → Coordinate → Coordinate → Coordinate)
    (query_nodes : Nat → QueryNode) (final_coordinate : Coordinate) :
    Coordinate → ℚ → List Nat → Coordinate
  | current_coordinate, distance_to_current, [] =>
      let distance_to_next :=
        distance_to_current + haversineDistance current_coordinate final_coordinate
      if distance_to_current < DESIRED_SEGMENT_LENGTH ∧
          DESIRED_SEGMENT_LENGTH ≤ distance_to_next then
        interpolateLinear (getFactor distance_to_current distance_to_next)
          current_coordinate final_coordinate
      else
        final_coordinate
  | current_coordinate, distance_to_current, node_id :: rest =>
      let next_coordinate := extractCoordinateFromNode (query_nodes node_id)
      let distance_to_next :=
        distance_to_current + haversineDistance current_coordinate next_coordinate
      if DESIRED_SEGMENT_LENGTH ≤ distance_to_next then
        interpolateLinear (getFactor distance_to_current distance_to_next)
          current_coordinate next_coordinate
      else
        getCoordinateFromCompressedRange haversineDistance interpolateLinear
          query_nodes final_coordinate next_coordinate distance_to_next rest

/-- `getRepresentativeCoordinate`.  The compressed-geometry container is
modelled as a partial map from edge id to its bucket of node ids
(`HasEntryForID` = the map is defined there); node storage as a total
coordinate lookup; the external distance/interpolation primitives as
parameters.  Reverse traversal uses the reversed bucket
(`rbegin`/`rend`). -/
def getRepresentativeCoordinate
    (haversineDistance : Coordinate → Coordinate → ℚ)
    (interpolateLinear : ℚ → Coordinate → Coordinate → Coordinate)
    (from_node to_node : Nat) (via_edge_id : Nat)
    (traverse_in_reverse : Bool)
    (compressed_geometries : Nat → Option (List Nat))
    (query_nodes : Nat → QueryNode) : Coordinate :=
  match compressed_geometries via_edge_id with
  | none =>
      extractCoordinateFromNode
        (query_nodes (if traverse_in_reverse then from_node else to_node))
  | some geometry =>
      let base_node_id := if traverse_in_reverse then to_node else from_node
      let base_coordinate := extractCoordinateFromNode (query_nodes base_node_id)
      let final_node := if traverse_in_reverse then from_node else to_node
      let final_coordinate := extractCoordinateFromNode (query_nodes final_node)
      getCoordinateFromCompressedRange haversineDistance interpolateLinear
        query_nodes final_coordinate base_coordinate 0
        (if traverse_in_reverse then geometry.reverse else geometry)

/-- `std::string::npos` for 64-bit `size_t`. -/
def npos : Nat := 2 ^ 64 - 1

/-- `find_first_of` with a single character: index of its first
occurrence, `none` when absent (C++ returns `npos`). -/
def findFirstOf (c : Char) : List Char → Option Nat
  | [] => none
  | x :: rest => if x = c then some 0 else (findFirstOf c rest).map (· + 1)

/-- `haystack.find(needle) != npos` on strings as character lists: does
`needle` occur as a contiguous substring of `haystack` (the empty needle
always does, matching C++ `find` returning 0). -/
def containsSubstr : List Char → List Char → Bool
  | [], needle => needle.isEmpty
  | c :: rest, needle => needle.isPrefixOf (c :: rest) || containsSubstr rest needle

/-- The `split` lambda of `requiresNameAnnounced`: parse
`"<name> (<ref>)"` into (name, ref).  Without a `'('` the whole string is
the name and the ref is empty.  With one, the name is everything strictly
before the character preceding `'('` (empty when `'('` starts the
string), and the ref is `substr(ref_begin + 1, ref_end - ref_begin - 1)`
where `ref_end` is the position of the first `')'` or `npos`; the count
is computed in `size_t` arithmetic (modulo `2 ^ 64`) exactly as in the
source, and `substr` clamps it to the remaining length. -/
def split (name : List Char) : List Char × List Char :=
  match findFirstOf '(' name with
  | none => (name, [])
  | some ref_begin =>
      let out_name := if ref_begin ≠ 0 then name.take (ref_begin - 1) else []
      let ref_end :=
        match findFirstOf ')' name with
        | some i => i
        | none => npos
      let count := (ref_end + 2 ^ 64 - (ref_begin + 1)) % 2 ^ 64
      let out_ref := (name.drop (ref_begin + 1)).take count
      (out_name, out_ref)

/-- `requiresNameAnnounced`: announce a name transition unless the change
is "obvious" (names/refs empty, equal names with contained refs, or a
name/ref that disappeared). -/
def requiresNameAnnounced (from_str to_str : List Char) : Bool :=
  let from_pair := split from_str
  let to_pair := split to_str
  let from_name := from_pair.1
  let from_ref := from_pair.2
  let to_name := to_pair.1
  let to_ref := to_pair.2
  let names_are_empty := from_name.isEmpty && to_name.isEmpty
  let names_are_equal := from_name == to_name
  let name_is_removed := !from_name.isEmpty && to_name.isEmpty
  let refs_are_empty := from_ref.isEmpty && to_ref.isEmpty
  let ref_is_contained :=
    from_ref.isEmpty || to_ref.isEmpty ||
      (containsSubstr from_ref to_ref || containsSubstr to_ref from_ref)
  let ref_is_removed := !from_ref.isEmpty && to_ref.isEmpty
  let obvious_change :=
    (names_are_empty && refs_are_empty) || (names_are_equal && ref_is_contained) ||
      (names_are_equal && refs_are_empty) || name_is_removed || ref_is_removed
  !obvious_change

/-- Following the claim's words (spec §4.3): the ideal center angle of a
modifier, `0, 45, 90, 135, 180, 225, 270, 315` by index.  Stated
independently of the source's `center` array so the two can be compared. -/
def specIdealCenter : DirectionModifier → ℚ
  | .UTurn => 0
  | .SharpRight => 45
  | .Right => 90
  | .SlightRight => 135
  | .Straight => 180
  | .SlightLeft => 225
  | .Left => 270
  | .SharpLeft => 315

/-- Following the claim's words (spec §4.3): the per-modifier tolerance
table `UTurn:0, SharpRight:45, Right:50, SlightRight:30, Straight:20,
SlightLeft:30, Left:50, SharpLeft:45`.  Stated independently of the
source's `deviations` array so the two can be compared. -/
def specTolerance : DirectionModifier → ℚ
  | .UTurn => 0
  | .SharpRight => 45
  | .Right => 50
  | .SlightRight => 30
  | .Straight => 20
  | .SlightLeft => 30
  | .Left => 50
  | .SharpLeft => 45

/-- Angular deviation is symmetric in its two bearings. -/
theorem angularDeviation_comm (a b : ℚ) : angularDeviation a b = angularDeviation b a := by
  unfold angularDeviation
  rw [abs_sub_comm]

/-- C2 counterexample: the clockwise shift of `Right` is not
`SlightRight` — the code's clockwise shift moves toward the lower index,
producing `SharpRight`. -/
theorem shiftCW_Right_counterexample :
    shiftCW DirectionModifier.Right ≠ DirectionModifier.SlightRight := by decide

/-- C2 (amended): the clockwise shift moves a clockwise-shiftable
modifier one position backward in the listed order (index minus one,
modulo 8), so `shiftCW Right = SharpRight`; the non-shiftable `Straight`
is unchanged. -/
theorem shiftCW_moves_toward_lower_index :
    (∀ m : DirectionModifier,
      (shiftCW m).val = if shiftable_cw m = true then (m.val + 7) % 8 else m.val) ∧
    shiftCW DirectionModifier.Right = DirectionModifier.SharpRight ∧
    shiftCW DirectionModifier.Straight = DirectionModifier.Straight := by decide

/-- C3 counterexample: the angle 193 lies in the claimed overlap
`(190, 195]`, but the code classifies it as `Straight`, not
`SlightLeft`, because the `Straight` band is tested first. -/
theorem getTurnDirection_193_counterexample :
    getTurnDirection 193 = DirectionModifier.Straight ∧
    getTurnDirection 193 ≠ DirectionModifier.SlightLeft := by decide

/-- C3 (amended): bands are evaluated in source order with the first
matching band winning, so overlap angles in `[165, 170)` classify as
`SlightRight` (that band is tested before `Straight`), while overlap
angles in `(190, 195]` classify as `Straight` (the `Straight` band is
tested before `SlightLeft`); and the named sample angles classify as
stated. -/
theorem getTurnDirection_band_order (q r : ℚ) (h₁ : 165 ≤ q) (h₂ : q < 170)
    (h₃ : 190 < r) (h₄ : r ≤ 195) :
    getTurnDirection q = DirectionModifier.SlightRight ∧
    getTurnDirection r = DirectionModifier.Straight ∧
    getTurnDirection 180 = DirectionModifier.Straight ∧
    getTurnDirection 0 = DirectionModifier.UTurn ∧
    getTurnDirection 90 = DirectionModifier.Right ∧
    getTurnDirection 270 = DirectionModifier.Left ∧
    getTurnDirection 45 = DirectionModifier.SharpRight := by
  refine ⟨?_, ?_, by decide, by decide, by decide, by decide, by decide⟩
  · unfold getTurnDirection
    rw [if_neg (by rintro ⟨-, h⟩; linarith),
      if_neg (by rintro ⟨-, h⟩; linarith),
      if_pos ⟨by linarith, h₂⟩]
  · unfold getTurnDirection
    rw [if_neg (by rintro ⟨-, h⟩; linarith),
      if_neg (by rintro ⟨-, h⟩; linarith),
      if_neg (by rintro ⟨-, h⟩; linarith),
      if_pos ⟨by linarith, h₄⟩]

/-- C3 witness: the amended band theorem at the concrete overlap angles
167 and 193. -/
theorem getTurnDirection_band_order_witness :
    getTurnDirection 167 = DirectionModifier.SlightRight ∧
    getTurnDirection 193 = DirectionModifier.Straight ∧
    getTurnDirection 180 = DirectionModifier.Straight ∧
    getTurnDirection 0 = DirectionModifier.UTurn ∧
    getTurnDirection 90 = DirectionModifier.Right ∧
    getTurnDirection 270 = DirectionModifier.Left ∧
    getTurnDirection 45 = DirectionModifier.SharpRight :=
  getTurnDirection_band_order 167 193 (by norm_num) (by norm_num) (by norm_num)
    (by norm_num)

/-- C5: angular deviation of a bearing from itself is 0; it is symmetric;
and for bearings in `[0, 360]` the result lies in `[0, 180]`. -/
theorem angularDeviation_props (a b : ℚ) (ha0 : 0 ≤ a) (ha1 : a ≤ 360)
    (hb0 : 0 ≤ b) (hb1 : b ≤ 360) :
    angularDeviation a a = 0 ∧ angularDeviation a b = angularDeviation b a ∧
    0 ≤ angularDeviation a b ∧ angularDeviation a b ≤ 180 := by
  refine ⟨?_, angularDeviation_comm a b, ?_, ?_⟩
  · show min (360 - |a - a|) |a - a| = 0
    simp
  · show 0 ≤ min (360 - |a - b|) |a - b|
    have h2 : |a - b| ≤ 360 := by
      rw [abs_le]
      constructor <;> linarith
    exact le_min (by linarith) (abs_nonneg _)
  · show min (360 - |a - b|) |a - b| ≤ 180
    rcases le_total (|a - b|) 180 with h | h
    · exact le_trans (min_le_right _ _) h
    · exact le_trans (min_le_left _ _) (by linarith)

/-- C5 witness: the deviation properties at the concrete bearings 30 and 200. -/
theorem angularDeviation_props_witness :
    angularDeviation 30 30 = 0 ∧ angularDeviation 30 200 = angularDeviation 200 30 ∧
    0 ≤ angularDeviation 30 200 ∧ angularDeviation 30 200 ≤ 180 :=
  angularDeviation_props 30 200 (by norm_num) (by norm_num) (by norm_num) (by norm_num)

/-- C8: identical name-and-reference strings need no announcement;
different plain names do; a name that disappears entirely is an obvious
change and needs none. -/
theorem requiresNameAnnounced_examples :
    requiresNameAnnounced "Main St (A1)".toList "Main St (A1)".toList = false ∧
    requiresNameAnnounced "Main St".toList "Oak St".toList = true ∧
    requiresNameAnnounced "Main St (A1)".toList "".toList = false := by decide

/-- C10: every modifier is distinct from itself; `isDistinct` reports
`false` exactly for the two modifiers one position away on the 8-way
circle (in either rotation, wrapping modulo 8). -/
theorem isDistinct_self_true_adjacent_false :
    (∀ m : DirectionModifier, isDistinct m m = true) ∧
    (∀ a b : DirectionModifier,
      isDistinct a b = false ↔
        ((a.val + 1) % 8 = b.val ∨ (b.val + 1) % 8 = a.val)) := by decide

/-- C1 counterexample: with `first = (Turn, Straight)`,
`second = (Turn, Right)`, `third = (Turn, Straight)` and clockwise
rotation, resolving `second` against `third` succeeds (the function
returns true), yet `first` keeps its `Straight` modifier — it is not
moved at all, although a forced one-step shift of `Straight` would have
changed it.  The shift of `first` is the conditional one, not forced. -/
theorem resolveTransitive_forced_shift_counterexample :
    (resolveTransitive ⟨TurnType.Turn, DirectionModifier.Straight⟩
        ⟨TurnType.Turn, DirectionModifier.Right⟩
        ⟨TurnType.Turn, DirectionModifier.Straight⟩ true).1 = true ∧
    (resolveTransitive ⟨TurnType.Turn, DirectionModifier.Straight⟩
        ⟨TurnType.Turn, DirectionModifier.Right⟩
        ⟨TurnType.Turn, DirectionModifier.Straight⟩ true).2.1.direction_modifier
      = DirectionModifier.Straight ∧
    forcedShiftCW DirectionModifier.Straight ≠ DirectionModifier.Straight := by decide

/-- C1 (amended): if resolving `second` against `third` succeeds,
`first`'s modifier is additionally shifted one position in the same
rotation only when it is shiftable in that rotation (the conditional
`shiftCW`/`shiftCCW`, not a forced shift — a non-shiftable `first` is
left unchanged), and the function returns true; if resolving fails,
`first` and `second` are left untouched and the function returns false. -/
theorem resolveTransitive_shifts_first_conditionally
    (first second third : TurnInstruction) (resolve_cw : Bool) :
    resolveTransitive first second third resolve_cw =
      if (resolve second third resolve_cw).1 = true then
        (true,
          { first with direction_modifier :=
              (if resolve_cw then shiftCW first.direction_modifier
               else shiftCCW first.direction_modifier) },
          (resolve second third resolve_cw).2)
      else (false, first, second) := by
  rcases h : resolve second third resolve_cw with ⟨ok, second'⟩
  have hs : ok = false → second' = second := by
    intro hok
    subst hok
    simp only [resolve] at h
    split at h
    all_goals split at h
    all_goals injection h with h1 h2
    all_goals first
      | exact h2.symm
      | exact Bool.noConfusion h1
  cases ok
  · simp [resolveTransitive, h, hs rfl]
  · simp [resolveTransitive, h]

/-- C4: the turn confidence is exactly 1 for every non-basic turn type
and for the `UTurn` modifier, regardless of the angle; otherwise it is
`1 − (penalty / tolerance)²`, where the penalty is the angular deviation
of the angle from the modifier's ideal center and the tolerance comes
from the claimed per-modifier table. -/
theorem getTurnConfidence_formula (angle : ℚ) (instruction : TurnInstruction) :
    getTurnConfidence angle instruction =
      if isBasic instruction.type = true ∧
          instruction.direction_modifier ≠ DirectionModifier.UTurn then
        1 - (angularDeviation angle (specIdealCenter instruction.direction_modifier) /
             specTolerance instruction.direction_modifier) ^ 2
      else 1 := by
  obtain ⟨t, m⟩ := instruction
  cases t <;> cases m <;>
    simp [getTurnConfidence, isBasic, getAngularPenalty, specIdealCenter,
      specTolerance, center, deviations] <;>
    rw [angularDeviation_comm] <;> ring

/-- C6: `resolve` fails (returns false with the candidate completely
unchanged) exactly when the one-step shift of the candidate's modifier in
the requested rotation collides with the neighbor's modifier or is a
no-op; in every other case it returns true with the candidate's modifier
replaced by the shifted value. -/
theorem resolve_success_failure_characterization :
    ∀ (to_resolve neighbor : TurnInstruction) (resolve_cw : Bool),
      (resolve to_resolve neighbor resolve_cw = (false, to_resolve) ↔
        ((if resolve_cw then shiftCW to_resolve.direction_modifier
          else shiftCCW to_resolve.direction_modifier) = neighbor.direction_modifier ∨
         (if resolve_cw then shiftCW to_resolve.direction_modifier
          else shiftCCW to_resolve.direction_modifier) = to_resolve.direction_modifier)) ∧
      (resolve to_resolve neighbor resolve_cw =
          (true, { to_resolve with direction_modifier :=
              (if resolve_cw then shiftCW to_resolve.direction_modifier
              else shiftCCW to_resolve.direction_modifier) }) ↔
        ¬((if resolve_cw then shiftCW to_resolve.direction_modifier
           else shiftCCW to_resolve.direction_modifier) = neighbor.direction_modifier ∨
          (if resolve_cw then shiftCW to_resolve.direction_modifier
           else shiftCCW to_resolve.direction_modifier) = to_resolve.direction_modifier)) := by
  decide

/-- C7: with no stored compressed geometry for the edge, the
representative coordinate is the coordinate of the endpoint that is not
the traversal origin, selected from the from/to nodes by the reversed
flag. -/
theorem getRepresentativeCoordinate_uncompressed
    (haversineDistance : Coordinate → Coordinate → ℚ)
    (interpolateLinear : ℚ → Coordinate → Coordinate → Coordinate)
    (from_node to_node via_edge_id : Nat) (traverse_in_reverse : Bool)
    (compressed_geometries : Nat → Option (List Nat))
    (query_nodes : Nat → QueryNode)
    (h : compressed_geometries via_edge_id = none) :
    getRepresentativeCoordinate haversineDistance interpolateLinear
        from_node to_node via_edge_id traverse_in_reverse
        compressed_geometries query_nodes =
      extractCoordinateFromNode
        (query_nodes (if traverse_in_reverse then from_node else to_node)) := by
  unfold getRepresentativeCoordinate
  rw [h]

/-- C7 witness: with `from = (0,0)` at node 0, `to = (0,1)` at node 1,
no compressed geometry and `reversed = false`, the representative
coordinate is exactly `(0,1)`, the far endpoint. -/
theorem getRepresentativeCoordinate_uncompressed_witness :
    getRepresentativeCoordinate (fun _ _ => 0) (fun _ a _ => a) 0 1 0 false
        (fun _ => none) (fun n => if n = 0 then ⟨0, 0⟩ else ⟨0, 1⟩) = ⟨0, 1⟩ :=
  Eq.trans
    (getRepresentativeCoordinate_uncompressed (fun _ _ => 0) (fun _ a _ => a) 0 1 0
      false (fun _ => none) (fun n => if n = 0 then ⟨0, 0⟩ else ⟨0, 1⟩) rfl)
    rfl

/-- C9: whenever the graded branch of the confidence computation is
reached (basic type, non-`UTurn` modifier), the tolerance divided by is
strictly positive; the only zero entry of the tolerance table is
`UTurn`'s, and a `UTurn` modifier is returned early with confidence 1 by
the guard, so the computation never divides by zero. -/
theorem getTurnConfidence_tolerance_positive (angle : ℚ)
    (instruction : TurnInstruction)
    (hb : isBasic instruction.type = true)
    (hm : instruction.direction_modifier ≠ DirectionModifier.UTurn) :
    0 < deviations instruction.direction_modifier ∧
    (∀ m : DirectionModifier, deviations m = 0 → m = DirectionModifier.UTurn) ∧
    getTurnConfidence angle ⟨instruction.type, DirectionModifier.UTurn⟩ = 1 := by
  obtain ⟨t, m⟩ := instruction
  refine ⟨?_, by decide, ?_⟩
  · cases m <;> first | (exact absurd rfl hm) | norm_num [deviations]
  · simp [getTurnConfidence]

/-- C9 witness: the positivity statement at angle 0 for the basic
instruction (Turn, Right). -/
theorem getTurnConfidence_tolerance_positive_witness :
    0 < deviations DirectionModifier.Right ∧
    (∀ m : DirectionModifier, deviations m = 0 → m = DirectionModifier.UTurn) ∧
    getTurnConfidence 0 ⟨TurnType.Turn, DirectionModifier.UTurn⟩ = 1 :=
  getTurnConfidence_tolerance_positive 0 ⟨TurnType.Turn, DirectionModifier.Right⟩
    (by decide) (by decide)

end Osrm
